import Mathlib

/-
  Verification development for the YouTube quiz application.

  Shallow embedding of the TypeScript sources:
  - src/unnamed/part_001            (types: QuizQuestion, Score, AppState)
  - src/unnamed/part_000, App       (getYouTubeId, handleGenerate, handleTimeUpdate,
                                     handleQuestionComplete, handleRestart,
                                     progressPercentage)
  - src/unnamed/part_000, geminiService (generateQuestions, segments)
  - src/unnamed/part_000, QuizOverlay   (handleSubmit / handleContinue)
  - src/components/YouTubePlayer.tsx    (the pause-request effect)

  JS numbers are modelled as rationals; JS Set of strings as a duplicate-free
  list (List.insert mirrors Set.add); thrown errors as Except.error; the async
  provider call as an oracle function passed in explicitly.
-/

namespace YTQuiz

/-- Shape of one quiz item, from interface QuizQuestion in src/unnamed/part_001. -/
structure QuizQuestion where
  id : String
  timestamp : ℚ
  question : String
  options : List String
  correctAnswerIndex : Nat
  feedback : String
  verbFocus : Option String := none
deriving DecidableEq

/-- Score record, from interface Score in src/unnamed/part_001. -/
structure Score where
  correct : Nat
  total : Nat
deriving DecidableEq

/-- Session state enumeration, from enum AppState in src/unnamed/part_001. -/
inductive AppState where
  | SETUP
  | GENERATING
  | PLAYING
  | FINISHED
deriving DecidableEq

/-- The React state of the App component (the useState hooks of
src/unnamed/part_000, lines 25 to 41), gathered into one record. -/
structure AppData where
  state : AppState
  videoUrl : String
  transcript : String
  topic : String
  isGenerating : Bool
  error : Option String
  questions : List QuizQuestion
  currentVideoId : String
  activeQuestion : Option QuizQuestion
  answeredQuestionIds : List String
  shouldPause : Bool
  score : Score
  playbackTime : ℚ
deriving DecidableEq

/- ------------------------------------------------------------------
   getYouTubeId (src/unnamed/part_000, lines 18 to 22)

   const regExp = /^.*(youtu.be\/|v\/|u\/\w\/|embed\/|watch\?v=|&v=)([^#&?]*).*/;
   const match = url.match(regExp);
   return (match && match[2].length === 11) ? match[2] : null;

   Embedding of the regular-expression semantics for this fixed pattern:
   the pattern is anchored at the start, so there is a single match attempt.
   The leading greedy `.*` (a dot does not cross a line terminator) is
   backtracked from the longest prefix downward, so the engine commits to the
   RIGHTMOST position at which one of the six alternatives matches and at
   which every preceding character is dot-matchable. The six alternatives
   start with pairwise distinct characters (y, v, u, e, w, &), so at most one
   of them matches at a given position; they are tried in source order. The
   capture `[^#&?]*` is greedy and a negated class does cross line
   terminators, so it captures the maximal run of characters other than
   #, &, ?. The trailing `.*` has no anchor after it and always succeeds, so
   it never causes further backtracking. JS string length counts UTF-16
   units; tokens of interest here are in the basic plane, so the character
   count below agrees with it.
   ------------------------------------------------------------------ -/

/-- Characters the regex dot does not match (JS line terminators). -/
def isLineTerminatorChar (c : Char) : Bool :=
  c = '\n' || c = '\r' || c = '\u2028' || c = '\u2029'

/-- The regex word class \w, that is [A-Za-z0-9_]. -/
def isWordChar (c : Char) : Bool :=
  ('a' ≤ c && c ≤ 'z') || ('A' ≤ c && c ≤ 'Z') || ('0' ≤ c && c ≤ '9') || c = '_'

/-- Characters matched by the capture class [^#&?]. -/
def isTokenChar (c : Char) : Bool :=
  !(c = '#' || c = '&' || c = '?')

/-- Strip a literal character sequence off the front of a list, returning the
remainder on success. -/
def stripLit : List Char → List Char → Option (List Char)
  | [], l => some l
  | _ :: _, [] => none
  | p :: ps, c :: l => if c = p then stripLit ps l else none

/-- The alternative `youtu.be\/` of the regex: the dot matches any character
except a line terminator. -/
def matchYoutuBe (l : List Char) : Option (List Char) :=
  match stripLit ['y', 'o', 'u', 't', 'u'] l with
  | some (c :: rest) =>
      if isLineTerminatorChar c then none else stripLit ['b', 'e', '/'] rest
  | _ => none

/-- The alternative `u\/\w\/` of the regex. -/
def matchUserPath (l : List Char) : Option (List Char) :=
  match stripLit ['u', '/'] l with
  | some (c :: rest) => if isWordChar c then stripLit ['/'] rest else none
  | _ => none

/-- Try the six alternatives of group 1 at one position, in source order;
on success return the remainder after the separator. -/
def matchAltAt (l : List Char) : Option (List Char) :=
  (matchYoutuBe l) <|>
  (stripLit ['v', '/'] l) <|>
  (matchUserPath l) <|>
  (stripLit ['e', 'm', 'b', 'e', 'd', '/'] l) <|>
  (stripLit ['w', 'a', 't', 'c', 'h', '?', 'v', '='] l) <|>
  (stripLit ['&', 'v', '='] l)

/-- Rightmost position at which an alternative matches and that the greedy
anchored `.*` can reach (the prefix before it holds no line terminator);
returns the remainder after the separator there. -/
def lastMatch : List Char → Option (List Char)
  | [] => none
  | c :: rest =>
      (if isLineTerminatorChar c then none else lastMatch rest) <|>
      matchAltAt (c :: rest)

/-- The whole extraction on character lists: capture group 2 at the committed
position is the maximal [^#&?] run; it is returned exactly when its length
is 11. -/
def getYouTubeIdL (l : List Char) : Option (List Char) :=
  match lastMatch l with
  | none => none
  | some rest =>
      let tok := rest.takeWhile isTokenChar
      if tok.length = 11 then some tok else none

/-- Extract video ID from various YouTube URL formats
(getYouTubeId, src/unnamed/part_000, lines 18 to 22). -/
def getYouTubeId (url : String) : Option String :=
  (getYouTubeIdL url.data).map fun t => String.mk t

/- ------------------------------------------------------------------
   geminiService (src/unnamed/part_000, lines 351 to 418)
   ------------------------------------------------------------------ -/

/-- Default of the durationMinutes parameter of generateQuestions
(src/unnamed/part_000, line 354: durationMinutes: number = 10). -/
def defaultDurationMinutes : ℚ := 10

/-- Candidate timestamps: [0.1, 0.3, 0.5, 0.7, 0.9].map(p =>
Math.floor(durationMinutes * 60 * p)) (src/unnamed/part_000, line 364).
For the argument values that occur, double rounding agrees with exact
rational arithmetic, so Math.floor is modelled as the rational floor. -/
def segments (durationMinutes : ℚ) : List ℤ :=
  [(1 : ℚ)/10, 3/10, 5/10, 7/10, 9/10].map fun p =>
    ⌊durationMinutes * 60 * p⌋

/-- The generateQuestions entry (src/unnamed/part_000, lines 351 to 418):
when the API key is absent it throws "API Key is missing" before the client
is even constructed; otherwise the outcome is that of the provider call,
modelled as an oracle. -/
def generateQuestions (apiKey : Option String)
    (provider : Unit → Except String (List QuizQuestion)) :
    Except String (List QuizQuestion) :=
  match apiKey with
  | none => Except.error "API Key is missing"
  | some _ => provider ()

/- ------------------------------------------------------------------
   App handlers (src/unnamed/part_000, lines 43 to 114)
   ------------------------------------------------------------------ -/

/-- Comparator used to sort questions: (a, b) => a.timestamp - b.timestamp
(src/unnamed/part_000, line 59), as the boolean order it induces. -/
def tsLe (a b : QuizQuestion) : Bool := a.timestamp ≤ b.timestamp

/-- handleGenerate (src/unnamed/part_000, lines 43 to 67), with the awaited
generateQuestions outcome passed as an argument. On an invalid URL it only
sets the error and returns. Otherwise it records the video id and, on
success, stores the questions sorted by timestamp (stable, as .sort in
ES2019) and moves to PLAYING with the error cleared; on failure it stores
err.message, or the fallback text when that message is empty. -/
def handleGenerate (s : AppData)
    (genResult : Except String (List QuizQuestion)) : AppData :=
  match getYouTubeId s.videoUrl with
  | none => { s with error := some "Please enter a valid YouTube URL" }
  | some id =>
      match genResult with
      | Except.ok qs =>
          { s with
              isGenerating := false
              error := none
              currentVideoId := id
              questions := qs.mergeSort tsLe
              state := AppState.PLAYING }
      | Except.error msg =>
          { s with
              isGenerating := false
              currentVideoId := id
              error := some (if msg = "" then
                "Failed to generate quiz. Please check your API key." else msg) }

/-- The predicate of the find call in handleTimeUpdate
(src/unnamed/part_000, lines 73 to 76): within the 1.5 second window and
not yet answered. -/
def pendingAt (currentTime : ℚ) (answered : List String)
    (q : QuizQuestion) : Bool :=
  decide (|currentTime - q.timestamp| < 3/2) && !(answered.contains q.id)

/-- handleTimeUpdate (src/unnamed/part_000, lines 69 to 82): record the
playback time; if some question is pending at this time, request a pause and
make it active, else leave both untouched. -/
def handleTimeUpdate (s : AppData) (currentTime : ℚ) : AppData :=
  let s1 := { s with playbackTime := currentTime }
  match s.questions.find? (pendingAt currentTime s.answeredQuestionIds) with
  | some q => { s1 with shouldPause := true, activeQuestion := some q }
  | none => s1

/-- A sequence of time-update ticks, applied in order. -/
def applyTicks (s : AppData) (ts : List ℚ) : AppData :=
  ts.foldl handleTimeUpdate s

/-- handleQuestionComplete (src/unnamed/part_000, lines 84 to 100): when a
question is active, bump the score and add its id to the answered set;
in all cases clear the active question and the pause request. -/
def handleQuestionComplete (s : AppData) (isCorrect : Bool) : AppData :=
  let s1 :=
    match s.activeQuestion with
    | some q =>
        { s with
            score :=
              { correct := s.score.correct + (if isCorrect then 1 else 0)
                total := s.score.total + 1 }
            answeredQuestionIds := s.answeredQuestionIds.insert q.id }
    | none => s
  { s1 with activeQuestion := none, shouldPause := false }

/-- handleRestart (src/unnamed/part_000, lines 102 to 109). -/
def handleRestart (s : AppData) : AppData :=
  { s with
      state := AppState.SETUP
      score := { correct := 0, total := 0 }
      answeredQuestionIds := []
      activeQuestion := none
      shouldPause := false
      questions := [] }

/-- progressPercentage (src/unnamed/part_000, lines 111 to 114). -/
def progressPercentage (s : AppData) : ℚ :=
  if s.questions.length = 0 then 0
  else ((s.score.total : ℚ) / (s.questions.length : ℚ)) * 100

/- ------------------------------------------------------------------
   QuizOverlay (src/unnamed/part_000, lines 428 to 442)
   ------------------------------------------------------------------ -/

/-- handleContinue of QuizOverlay (src/unnamed/part_000, lines 438 to 442):
with a selected option it reports onComplete(selectedOption ===
question.correctAnswerIndex); with none selected it does nothing. -/
def handleContinue (selectedOption : Option Nat) (q : QuizQuestion) :
    Option Bool :=
  match selectedOption with
  | none => none
  | some i => some (decide (i = q.correctAnswerIndex))

/- ------------------------------------------------------------------
   YouTubePlayer pause effect (src/components/YouTubePlayer.tsx,
   lines 125 to 132)

   useEffect(() => {
     if (isReady && playerRef.current && typeof pauseVideo === 'function') {
       if (shouldPause) { playerRef.current.pauseVideo(); onPaused(); }
     }
   }, [shouldPause, isReady, onPaused]);

   React runs the effect after the first render and after every render in
   which the dependency triple changed. The onPaused prop is compared by
   closure identity; App passes a fresh arrow function on every render
   (src/unnamed/part_000, line 262), modelled by a numeric identity tag.
   ------------------------------------------------------------------ -/

/-- Dependency triple of the pause effect as seen at one render:
the shouldPause prop, the internal isReady flag, and the identity of the
onPaused callback. -/
structure PlayerRenderProps where
  shouldPause : Bool
  isReady : Bool
  onPausedId : Nat
deriving DecidableEq

/-- Observable commands the effect body can emit, in order. -/
inductive PlayerEvent where
  | pauseVideo
  | onPausedSignal
deriving DecidableEq

/-- Body of the effect: when the player is ready and a pause is requested it
issues pauseVideo and then signals onPaused; otherwise nothing. -/
def pauseEffectBody (d : PlayerRenderProps) : List PlayerEvent :=
  if d.isReady && d.shouldPause then
    [PlayerEvent.pauseVideo, PlayerEvent.onPausedSignal]
  else []

/-- One render: the effect re-runs exactly when the dependency triple differs
from the previous render (and always on the first render). -/
def pauseEffectRun (prev : Option PlayerRenderProps) (d : PlayerRenderProps) :
    List PlayerEvent :=
  if prev = some d then [] else pauseEffectBody d

/-- Events emitted over a sequence of renders, threading the previous
dependency triple. -/
def playerEvents : Option PlayerRenderProps → List PlayerRenderProps →
    List PlayerEvent
  | _, [] => []
  | prev, d :: rest => pauseEffectRun prev d ++ playerEvents (some d) rest

/-- Number of pauseVideo commands issued over a render sequence. -/
def pauseCount (prev : Option PlayerRenderProps)
    (renders : List PlayerRenderProps) : Nat :=
  (playerEvents prev renders).count PlayerEvent.pauseVideo

/-- Number of activations of the pause request over a render sequence:
transitions of shouldPause from false to true while the player is ready. -/
def activationCount : Bool → List PlayerRenderProps → Nat
  | _, [] => 0
  | prevPause, d :: rest =>
      (if !prevPause && d.shouldPause && d.isReady then 1 else 0) +
        activationCount d.shouldPause rest

/- ------------------------------------------------------------------
   Declarative descriptions used to state the URL-extraction claims.
   ------------------------------------------------------------------ -/

/-- Character sequences matched by group 1 of the regex: the supported
separator shapes youtu.be/ (dot = any non line terminator), v/, u/\w/,
embed/, watch?v=, and &v=. -/
def IsSep (s : List Char) : Prop :=
  (∃ c, isLineTerminatorChar c = false ∧
      s = ['y', 'o', 'u', 't', 'u', c, 'b', 'e', '/']) ∨
  s = ['v', '/'] ∨
  (∃ c, isWordChar c = true ∧ s = ['u', '/', c, '/']) ∨
  s = ['e', 'm', 'b', 'e', 'd', '/'] ∨
  s = ['w', 'a', 't', 'c', 'h', '?', 'v', '='] ∨
  s = ['&', 'v', '=']

/-- What may legally follow an extracted token: end of input, or a character
outside the capture class [^#&?]. -/
def TokenBoundary (u : List Char) : Prop :=
  u = [] ∨ ∃ c u', u = c :: u' ∧ isTokenChar c = false

/- ------------------------------------------------------------------
   Concrete sample data used by counterexamples and witnesses.
   ------------------------------------------------------------------ -/

/-- A sample quiz item with target timestamp 10 seconds. -/
def qA : QuizQuestion :=
  { id := "q1", timestamp := 10, question := "What does Luke build?",
    options := ["a cabin", "a snow cave", "a raft"], correctAnswerIndex := 1,
    feedback := "He builds a snow cave.", verbFocus := some "build" }

/-- A sample quiz item with target timestamp 13 seconds (spacing 3 s, which
is twice the 1.5 s matching window). -/
def qB : QuizQuestion :=
  { id := "q2", timestamp := 13, question := "What does he cook?",
    options := ["steak", "rice"], correctAnswerIndex := 0,
    feedback := "He cooks steak.", verbFocus := some "cook" }

/-- A PLAYING session holding the two sample items, nothing answered yet. -/
def sPlay : AppData :=
  { state := AppState.PLAYING
    videoUrl := "https://www.youtube.com/watch?v=sSsTR8qqDl4"
    transcript := ""
    topic := "Outdoor Boys Camping & Survival"
    isGenerating := false
    error := none
    questions := [qA, qB]
    currentVideoId := "sSsTR8qqDl4"
    activeQuestion := none
    answeredQuestionIds := []
    shouldPause := false
    score := { correct := 0, total := 0 }
    playbackTime := 0 }

/-- A PLAYING session holding only the item at timestamp 10. -/
def sOne : AppData := { sPlay with questions := [qA] }

/-- The single-item session after its question was answered. -/
def sDone : AppData := { sOne with answeredQuestionIds := ["q1"] }

/-- The single-item session while its question is being presented. -/
def sActive : AppData :=
  { sOne with activeQuestion := some qA, shouldPause := true }

/-- A SETUP session with a valid URL and no questions yet. -/
def sSetup : AppData :=
  { sPlay with state := AppState.SETUP, questions := [], currentVideoId := "" }

/-- Render sequence of the player during one pause activation: the request
turns true at the second render and stays true, while the parent rebuilds the
onPaused closure on every render (fresh identity tag each time), as App does. -/
def rendersW : List PlayerRenderProps :=
  [{ shouldPause := false, isReady := true, onPausedId := 0 },
   { shouldPause := true, isReady := true, onPausedId := 1 },
   { shouldPause := true, isReady := true, onPausedId := 2 }]

/- ==================================================================
   Theorems.
   ================================================================== -/

/-- C1: a time-update tick records the current time; when the list of
questions (kept in the ascending-timestamp order produced on receipt)
holds a first item within strictly 1.5 seconds of the current time whose id
is not in the answered set, the tick makes it the active question and
requests a pause — the selected item satisfies the window and is preceded
only by items that do not; when no item qualifies, the active question and
the pause request are left unchanged. On receipt, handleGenerate stores a
timestamp-sorted permutation of the generated items and moves to PLAYING. -/
theorem C1_tick_selects_first_pending :
    (∀ (s : AppData) (t : ℚ), (handleTimeUpdate s t).playbackTime = t) ∧
    (∀ (s : AppData) (t : ℚ) (q : QuizQuestion),
        s.questions.find? (pendingAt t s.answeredQuestionIds) = some q →
          (handleTimeUpdate s t).activeQuestion = some q ∧
          (handleTimeUpdate s t).shouldPause = true ∧
          |t - q.timestamp| < 3/2 ∧ q.id ∉ s.answeredQuestionIds ∧
          ∃ pre post, s.questions = pre ++ q :: post ∧
            ∀ r ∈ pre, pendingAt t s.answeredQuestionIds r = false) ∧
    (∀ (s : AppData) (t : ℚ),
        s.questions.find? (pendingAt t s.answeredQuestionIds) = none →
          (handleTimeUpdate s t).activeQuestion = s.activeQuestion ∧
          (handleTimeUpdate s t).shouldPause = s.shouldPause) ∧
    (∀ (s : AppData) (qs : List QuizQuestion) (i : String),
        getYouTubeId s.videoUrl = some i →
          ((handleGenerate s (Except.ok qs)).questions.Pairwise
            fun a b => a.timestamp ≤ b.timestamp) ∧
          (handleGenerate s (Except.ok qs)).questions.Perm qs ∧
          (handleGenerate s (Except.ok qs)).state = AppState.PLAYING) := by
  refine ⟨fun s t => ?_, fun s t q h => ?_, fun s t h => ?_, fun s qs i hurl => ?_⟩
  · cases hf : s.questions.find? (pendingAt t s.answeredQuestionIds) <;>
      simp [handleTimeUpdate, hf]
  · obtain ⟨hp, pre, post, heq, hall⟩ := List.find?_eq_some.mp h
    have hp' : |t - q.timestamp| < 3/2 ∧ q.id ∉ s.answeredQuestionIds := by
      simpa [pendingAt] using hp
    have hact : (handleTimeUpdate s t).activeQuestion = some q := by
      simp [handleTimeUpdate, h]
    have hpause : (handleTimeUpdate s t).shouldPause = true := by
      simp [handleTimeUpdate, h]
    exact ⟨hact, hpause, hp'.1, hp'.2,
      pre, post, heq, fun r hr => by simpa using hall r hr⟩
  · simp [handleTimeUpdate, h]
  · have htrans : ∀ a b c : QuizQuestion,
        tsLe a b = true → tsLe b c = true → tsLe a c = true := by
      intro a b c hab hbc
      simp only [tsLe, decide_eq_true_eq] at *
      exact le_trans hab hbc
    have htotal : ∀ a b : QuizQuestion, (tsLe a b || tsLe b a) = true := by
      intro a b
      simp only [tsLe, Bool.or_eq_true, decide_eq_true_eq]
      exact le_total a.timestamp b.timestamp
    have hsorted := List.sorted_mergeSort htrans htotal qs
    have hq : (handleGenerate s (Except.ok qs)).questions = qs.mergeSort tsLe := by
      simp [handleGenerate, hurl]
    have hst : (handleGenerate s (Except.ok qs)).state = AppState.PLAYING := by
      simp [handleGenerate, hurl]
    refine ⟨hq ▸ hsorted.imp ?_, hq ▸ List.mergeSort_perm qs tsLe, hst⟩
    intro a b hab
    simpa [tsLe] using hab

/-- C1 witness: at time 10 the single unanswered sample item at timestamp 10
is selected and a pause requested. -/
theorem C1_tick_selects_first_pending_witness :
    (handleTimeUpdate sOne 10).activeQuestion = some qA ∧
    (handleTimeUpdate sOne 10).shouldPause = true := by
  have hf : sOne.questions.find? (pendingAt 10 sOne.answeredQuestionIds)
      = some qA := by
    norm_num [sOne, sPlay, qA, List.find?, pendingAt]
  have h := C1_tick_selects_first_pending.2.1 sOne 10 qA hf
  exact ⟨h.1, h.2.1⟩

/-- C2 counterexample: ticks are re-evaluated while a question is active.
In the two-item PLAYING session (timestamps 10 and 13, spaced by twice the
window), the tick at 10 activates the first item; while that item is still
active and unanswered, the tick at 13 re-runs the decision and replaces the
active question with the second item. -/
theorem C2_active_question_replaced_counterexample :
    (handleTimeUpdate sPlay 10).activeQuestion = some qA ∧
    (handleTimeUpdate sPlay 10).shouldPause = true ∧
    qA.id ∉ (handleTimeUpdate sPlay 10).answeredQuestionIds ∧
    (handleTimeUpdate (handleTimeUpdate sPlay 10) 13).activeQuestion = some qB ∧
    qB ≠ qA := by
  have hf1 : sPlay.questions.find? (pendingAt 10 sPlay.answeredQuestionIds)
      = some qA := by
    norm_num [sPlay, qA, qB, List.find?, pendingAt]
  have hf2 : sPlay.questions.find? (pendingAt 13 sPlay.answeredQuestionIds)
      = some qB := by
    norm_num [sPlay, qA, qB, List.find?, pendingAt, abs_lt]
  have ha1 : (handleTimeUpdate sPlay 10).activeQuestion = some qA := by
    simp [handleTimeUpdate, hf1]
  have hs1 : (handleTimeUpdate sPlay 10).shouldPause = true := by
    simp [handleTimeUpdate, hf1]
  have han1 : (handleTimeUpdate sPlay 10).answeredQuestionIds
      = sPlay.answeredQuestionIds := by
    simp [handleTimeUpdate, hf1]
  have hq1 : (handleTimeUpdate sPlay 10).questions = sPlay.questions := by
    simp [handleTimeUpdate, hf1]
  set S1 := handleTimeUpdate sPlay 10 with hS1
  have hf2' : S1.questions.find? (pendingAt 13 S1.answeredQuestionIds)
      = some qB := by
    rw [hq1, han1]; exact hf2
  have ha2 : (handleTimeUpdate S1 13).activeQuestion = some qB := by
    simp [handleTimeUpdate, hf2']
  refine ⟨ha1, hs1, ?_, ha2, by norm_num [qA, qB]⟩
  rw [han1]
  norm_num [sPlay]

/-- C2 amended: the scheduler decision is re-run on every tick, even while
a question is active, and may then re-issue or replace the active question;
still, in the tick sequence 0, 5, 10, 10.4 over a session with the single
unanswered item at timestamp 10, the active question becomes set exactly
once: it is null after the ticks at 0 and at 5, becomes that item at the
tick at 10, and remains that same item after the tick at 10.4. -/
theorem C2_single_item_scenario :
    (applyTicks sOne [0]).activeQuestion = none ∧
    (applyTicks sOne [0]).shouldPause = false ∧
    (applyTicks sOne [0, 5]).activeQuestion = none ∧
    (applyTicks sOne [0, 5]).shouldPause = false ∧
    (applyTicks sOne [0, 5, 10]).activeQuestion = some qA ∧
    (applyTicks sOne [0, 5, 10]).shouldPause = true ∧
    (applyTicks sOne [0, 5, 10, 52/5]).activeQuestion = some qA ∧
    (applyTicks sOne [0, 5, 10, 52/5]).shouldPause = true := by
  refine ⟨?_, ?_, ?_, ?_, ?_, ?_, ?_, ?_⟩ <;>
    norm_num [applyTicks, handleTimeUpdate, sOne, sPlay, qA,
      List.find?, pendingAt, abs_lt]

/-- C3: once an id is in the answered set, no sequence of time-update ticks
ever makes the item with that id active again: ticks leave the answered set
unchanged, and after any tick sequence the active question (if any) has a
different id, provided it already had one at the start. -/
theorem C3_answered_never_reactivated :
    ∀ (s : AppData) (i : String) (ts : List ℚ),
      i ∈ s.answeredQuestionIds →
      (∀ q, s.activeQuestion = some q → q.id ≠ i) →
      (applyTicks s ts).answeredQuestionIds = s.answeredQuestionIds ∧
      ∀ q, (applyTicks s ts).activeQuestion = some q → q.id ≠ i := by
  intro s i ts
  induction ts generalizing s with
  | nil => intro _ h2; exact ⟨rfl, h2⟩
  | cons t ts ih =>
    intro h1 h2
    have step : (handleTimeUpdate s t).answeredQuestionIds
          = s.answeredQuestionIds ∧
        ∀ q, (handleTimeUpdate s t).activeQuestion = some q → q.id ≠ i := by
      cases hf : s.questions.find? (pendingAt t s.answeredQuestionIds) with
      | none =>
        have hans : (handleTimeUpdate s t).answeredQuestionIds
            = s.answeredQuestionIds := by simp [handleTimeUpdate, hf]
        have hact : (handleTimeUpdate s t).activeQuestion = s.activeQuestion := by
          simp [handleTimeUpdate, hf]
        exact ⟨hans, fun q hq => h2 q (hact ▸ hq)⟩
      | some q =>
        have hans : (handleTimeUpdate s t).answeredQuestionIds
            = s.answeredQuestionIds := by simp [handleTimeUpdate, hf]
        have hact : (handleTimeUpdate s t).activeQuestion = some q := by
          simp [handleTimeUpdate, hf]
        refine ⟨hans, fun q' hq' => ?_⟩
        rw [hact] at hq'
        have hq : q' = q := by simpa using hq'.symm
        subst hq
        have hpend : |t - q'.timestamp| < 3/2 ∧
            q'.id ∉ s.answeredQuestionIds := by
          simpa [pendingAt] using List.find?_some hf
        intro heq
        exact hpend.2 (heq ▸ h1)
    have hrec := ih (handleTimeUpdate s t) (step.1 ▸ h1) step.2
    have happ : applyTicks s (t :: ts) = applyTicks (handleTimeUpdate s t) ts :=
      rfl
    rw [happ]
    exact ⟨step.1 ▸ hrec.1, hrec.2⟩

/-- C3 witness: in the session whose item q1 was answered, the ticks at 10
and 10.4 (back inside the window of q1) never reactivate q1. -/
theorem C3_answered_never_reactivated_witness :
    (applyTicks sDone [10, 52/5]).answeredQuestionIds
      = sDone.answeredQuestionIds ∧
    ∀ q, (applyTicks sDone [10, 52/5]).activeQuestion = some q →
      q.id ≠ "q1" := by
  have h1 : "q1" ∈ sDone.answeredQuestionIds := by
    simp [sDone, sOne, sPlay]
  have h2 : ∀ q, sDone.activeQuestion = some q → q.id ≠ "q1" := by
    intro q hq
    simp [sDone, sOne, sPlay] at hq
  exact C3_answered_never_reactivated sDone "q1" [10, 52/5] h1 h2

/- Helper lemmas about the URL-extraction embedding. -/

theorem stripLit_eq_append {ps l r : List Char} (h : stripLit ps l = some r) :
    l = ps ++ r := by
  induction ps generalizing l with
  | nil =>
    simpa [stripLit] using h
  | cons p ps ih =>
    cases l with
    | nil => simp [stripLit] at h
    | cons c l' =>
      by_cases hc : c = p
      · rw [stripLit, if_pos hc] at h
        rw [hc, List.cons_append, ih h]
      · rw [stripLit, if_neg hc] at h
        cases h

theorem stripLit_append_self (ps r : List Char) : stripLit ps (ps ++ r) = some r := by
  induction ps with
  | nil => rfl
  | cons p ps ih => simp [stripLit, ih]

theorem matchAltAt_of_isSep {s : List Char} (h : IsSep s) (r : List Char) :
    matchAltAt (s ++ r) = some r := by
  rcases h with ⟨c, hc, rfl⟩ | rfl | ⟨c, hc, rfl⟩ | rfl | rfl | rfl
  · simp [matchAltAt, matchYoutuBe, matchUserPath, stripLit, hc,
      stripLit_append_self]
  · simp [matchAltAt, matchYoutuBe, matchUserPath, stripLit,
      stripLit_append_self]
  · simp [matchAltAt, matchYoutuBe, matchUserPath, stripLit, hc,
      stripLit_append_self]
  · simp [matchAltAt, matchYoutuBe, matchUserPath, stripLit,
      stripLit_append_self]
  · simp [matchAltAt, matchYoutuBe, matchUserPath, stripLit,
      stripLit_append_self]
  · simp [matchAltAt, matchYoutuBe, matchUserPath, stripLit,
      stripLit_append_self]

theorem matchYoutuBe_eq_some {l r : List Char} (h : matchYoutuBe l = some r) :
    ∃ c, isLineTerminatorChar c = false ∧
      l = ['y', 'o', 'u', 't', 'u', c, 'b', 'e', '/'] ++ r := by
  unfold matchYoutuBe at h
  cases hs : stripLit ['y', 'o', 'u', 't', 'u'] l with
  | none => rw [hs] at h; cases h
  | some l1 =>
    rw [hs] at h
    cases l1 with
    | nil => cases h
    | cons c rest =>
      cases hterm : isLineTerminatorChar c with
      | true => simp [hterm] at h
      | false =>
        simp only [hterm, Bool.false_eq_true, if_false] at h
        refine ⟨c, hterm, ?_⟩
        rw [stripLit_eq_append hs, stripLit_eq_append h]
        rfl

theorem matchUserPath_eq_some {l r : List Char} (h : matchUserPath l = some r) :
    ∃ c, isWordChar c = true ∧ l = ['u', '/', c, '/'] ++ r := by
  unfold matchUserPath at h
  cases hs : stripLit ['u', '/'] l with
  | none => rw [hs] at h; cases h
  | some l1 =>
    rw [hs] at h
    cases l1 with
    | nil => cases h
    | cons c rest =>
      cases hw : isWordChar c with
      | false => simp [hw] at h
      | true =>
        simp only [hw, if_true] at h
        refine ⟨c, hw, ?_⟩
        rw [stripLit_eq_append hs, stripLit_eq_append h]
        rfl

theorem matchAltAt_eq_some {l r : List Char} (h : matchAltAt l = some r) :
    ∃ s, IsSep s ∧ l = s ++ r := by
  unfold matchAltAt at h
  rcases (Option.orElse_eq_some _ _ _).mp h with h1 | ⟨_, h⟩
  · obtain ⟨c, hc, hl⟩ := matchYoutuBe_eq_some h1
    exact ⟨_, Or.inl ⟨c, hc, rfl⟩, hl⟩
  rcases (Option.orElse_eq_some _ _ _).mp h with h1 | ⟨_, h⟩
  · exact ⟨_, Or.inr (Or.inl rfl), stripLit_eq_append h1⟩
  rcases (Option.orElse_eq_some _ _ _).mp h with h1 | ⟨_, h⟩
  · obtain ⟨c, hc, hl⟩ := matchUserPath_eq_some h1
    exact ⟨_, Or.inr (Or.inr (Or.inl ⟨c, hc, rfl⟩)), hl⟩
  rcases (Option.orElse_eq_some _ _ _).mp h with h1 | ⟨_, h⟩
  · exact ⟨_, Or.inr (Or.inr (Or.inr (Or.inl rfl))), stripLit_eq_append h1⟩
  rcases (Option.orElse_eq_some _ _ _).mp h with h1 | ⟨_, h⟩
  · exact ⟨_, Or.inr (Or.inr (Or.inr (Or.inr (Or.inl rfl)))),
      stripLit_eq_append h1⟩
  · exact ⟨_, Or.inr (Or.inr (Or.inr (Or.inr (Or.inr rfl)))),
      stripLit_eq_append h⟩

theorem lastMatch_eq_none {l : List Char}
    (h : ∀ l', l' <:+ l → matchAltAt l' = none) : lastMatch l = none := by
  induction l with
  | nil => rfl
  | cons c rest ih =>
    have h1 : matchAltAt (c :: rest) = none := h _ (List.suffix_refl _)
    have h2 : lastMatch rest = none :=
      ih fun l' hl' => h l' (hl'.trans (List.suffix_cons c rest))
    simp [lastMatch, h1, h2]

theorem lastMatch_append_left {p r x : List Char}
    (hp : ∀ c ∈ p, isLineTerminatorChar c = false)
    (hr : lastMatch r = some x) : lastMatch (p ++ r) = some x := by
  induction p with
  | nil => simpa using hr
  | cons c p' ih =>
    have hc : isLineTerminatorChar c = false := hp c (List.mem_cons_self c p')
    have ih' := ih fun d hd => hp d (List.mem_cons_of_mem c hd)
    simp [lastMatch, hc, ih']

theorem lastMatch_of_rightmost {s t u : List Char} (hsep : IsSep s)
    (hlast : ∀ l ∈ (s ++ (t ++ u)).tails, l ≠ s ++ (t ++ u) →
      matchAltAt l = none) :
    lastMatch (s ++ (t ++ u)) = some (t ++ u) := by
  obtain ⟨c, s', rfl⟩ : ∃ c s', s = c :: s' := by
    rcases hsep with ⟨c, _, rfl⟩ | rfl | ⟨c, _, rfl⟩ | rfl | rfl | rfl <;>
      exact ⟨_, _, rfl⟩
  have hrest : lastMatch (s' ++ (t ++ u)) = none := by
    apply lastMatch_eq_none
    intro l' hl'
    have hsuff : l' <:+ (c :: s') ++ (t ++ u) := by
      refine hl'.trans ?_
      rw [List.cons_append]
      exact List.suffix_cons c (s' ++ (t ++ u))
    refine hlast l' ((List.mem_tails _ _).mpr hsuff) ?_
    intro hEq
    have hle := hl'.length_le
    rw [hEq] at hle
    simp at hle
  have hhere : matchAltAt ((c :: s') ++ (t ++ u)) = some (t ++ u) :=
    matchAltAt_of_isSep hsep (t ++ u)
  rw [List.cons_append] at hhere ⊢
  simp [lastMatch, hrest, hhere]

theorem lastMatch_eq_some_decomp {l r : List Char} (h : lastMatch l = some r) :
    ∃ p s, IsSep s ∧ l = p ++ (s ++ r) := by
  induction l with
  | nil => cases h
  | cons c rest ih =>
    rw [lastMatch] at h
    rcases (Option.orElse_eq_some _ _ _).mp h with h1 | ⟨_, h1⟩
    · have hrec : lastMatch rest = some r := by
        cases hterm : isLineTerminatorChar c with
        | true => rw [hterm] at h1; cases h1
        | false => rw [hterm] at h1; simpa using h1
      obtain ⟨p, s, hsep, hl⟩ := ih hrec
      exact ⟨c :: p, s, hsep, by rw [List.cons_append, hl]⟩
    · obtain ⟨s, hsep, hl⟩ := matchAltAt_eq_some h1
      exact ⟨[], s, hsep, by simpa using hl⟩

theorem takeWhile_token_append {t u : List Char}
    (ht : ∀ c ∈ t, isTokenChar c = true) (hu : TokenBoundary u) :
    (t ++ u).takeWhile isTokenChar = t := by
  induction t with
  | nil =>
    rcases hu with rfl | ⟨c, u', rfl, hc⟩
    · rfl
    · simp [List.takeWhile_cons, hc]
  | cons a t' ih =>
    have ha : isTokenChar a = true := ht a (List.mem_cons_self _ _)
    have ih' := ih fun c hc => ht c (List.mem_cons_of_mem _ hc)
    simp [List.takeWhile_cons, ha, ih']

theorem tokenBoundary_dropWhile (l : List Char) :
    TokenBoundary (l.dropWhile isTokenChar) := by
  cases hd : l.dropWhile isTokenChar with
  | nil => exact Or.inl rfl
  | cons c u' =>
    refine Or.inr ⟨c, u', rfl, ?_⟩
    have hh := List.head?_dropWhile_not isTokenChar l
    rw [hd] at hh
    simpa using hh

/-- C4 counterexample: the input below is of the supported watch?v= shape and
contains an 11-character token right after that separator (with a boundary
character following it), yet extraction returns null — the regex commits to
the later &v= occurrence, whose token has length 1. -/
theorem C4_earlier_token_missed_counterexample :
    "watch?v=abcdefghijk&v=x".data
        = [] ++ ("watch?v=".data ++ ("abcdefghijk".data ++ "&v=x".data)) ∧
    IsSep "watch?v=".data ∧
    ("abcdefghijk".data).length = 11 ∧
    (∀ c ∈ "abcdefghijk".data, isTokenChar c = true) ∧
    TokenBoundary "&v=x".data ∧
    getYouTubeId "watch?v=abcdefghijk&v=x" = none := by
  refine ⟨by decide, ?_, by decide, by decide, ?_, by decide⟩
  · exact Or.inr (Or.inr (Or.inr (Or.inr (Or.inl (by decide)))))
  · exact Or.inr ⟨'&', "v=x".data, by decide, by decide⟩

/-- C4 amended: extraction commits to the rightmost separator occurrence.
For every URL decomposed as prefix ++ separator ++ token ++ remainder where
the separator is of a supported shape, no separator occurrence starts after
it, the prefix holds no line terminator, the token has 11 characters none of
which is #, &, or ?, and the remainder is empty or starts with one of those
delimiters, extraction returns exactly that token; and for every input
admitting no decomposition prefix ++ separator ++ 11-character-token ++
boundary at all, extraction fails (returns null). -/
theorem C4_rightmost_extraction :
    (∀ p s t u : List Char, IsSep s →
        (∀ c ∈ p, isLineTerminatorChar c = false) →
        (∀ l ∈ (s ++ (t ++ u)).tails, l ≠ s ++ (t ++ u) →
          matchAltAt l = none) →
        t.length = 11 →
        (∀ c ∈ t, isTokenChar c = true) →
        TokenBoundary u →
        getYouTubeIdL (p ++ (s ++ (t ++ u))) = some t) ∧
    (∀ l : List Char,
        (¬ ∃ p s t u, IsSep s ∧ t.length = 11 ∧
            (∀ c ∈ t, isTokenChar c = true) ∧ TokenBoundary u ∧
            l = p ++ (s ++ (t ++ u))) →
        getYouTubeIdL l = none) := by
  constructor
  · intro p s t u hsep hp hlast hlen ht hu
    have hl : lastMatch (p ++ (s ++ (t ++ u))) = some (t ++ u) :=
      lastMatch_append_left hp (lastMatch_of_rightmost hsep hlast)
    rw [getYouTubeIdL, hl]
    simp only [takeWhile_token_append ht hu, hlen, if_true]
  · intro l hne
    cases hg : getYouTubeIdL l with
    | none => rfl
    | some tok =>
      exfalso
      apply hne
      rw [getYouTubeIdL] at hg
      cases hl : lastMatch l with
      | none => rw [hl] at hg; cases hg
      | some rest =>
        rw [hl] at hg
        simp only at hg
        by_cases hlen : (rest.takeWhile isTokenChar).length = 11
        · obtain ⟨p, s, hsep, hdecomp⟩ := lastMatch_eq_some_decomp hl
          refine ⟨p, s, rest.takeWhile isTokenChar,
            rest.dropWhile isTokenChar, hsep, hlen,
            fun c hc => List.mem_takeWhile_imp hc,
            tokenBoundary_dropWhile rest, ?_⟩
          rw [hdecomp, List.takeWhile_append_dropWhile]
        · rw [if_neg hlen] at hg; cases hg

/-- C4 witness: on the well-formed sample URL, whose only separator
occurrence is watch?v= followed by the 11-character token at the end,
extraction returns that token. -/
theorem C4_rightmost_extraction_witness :
    getYouTubeId "https://www.youtube.com/watch?v=sSsTR8qqDl4"
      = some "sSsTR8qqDl4" := by
  have h := C4_rightmost_extraction.1 "https://www.youtube.com/".data
    "watch?v=".data "sSsTR8qqDl4".data []
    (Or.inr (Or.inr (Or.inr (Or.inr (Or.inl (by decide))))))
    (by decide) (by decide) (by decide) (by decide) (Or.inl rfl)
  have heq : "https://www.youtube.com/".data ++
      ("watch?v=".data ++ ("sSsTR8qqDl4".data ++ ([] : List Char)))
      = "https://www.youtube.com/watch?v=sSsTR8qqDl4".data := by decide
  rw [heq] at h
  rw [getYouTubeId, h]
  decide

/-- C5 counterexample: one activation of the pause request can issue the
pause command more than once. In the render sequence where the request
turns true at the second render and stays true while the onPaused closure
gets a fresh identity each render (exactly what App passes), there is one
activation but the pause command is issued twice. -/
theorem C5_pause_reissued_counterexample :
    activationCount false rendersW = 1 ∧ pauseCount none rendersW = 2 := by
  decide

/-- C5 amended: each effect run with the request true and the player ready
issues the pause command once, immediately followed by the paused signal;
the effect re-runs whenever its dependency triple changed, so the command
can be re-issued during one activation (the onPaused identity changes every
parent render); it is never issued while the request is false or the player
is not ready, and an unchanged dependency triple does not re-run the
effect. -/
theorem C5_pause_effect_per_render :
    (∀ (prev : Option PlayerRenderProps) (d : PlayerRenderProps)
        (rest : List PlayerRenderProps),
        prev ≠ some d → d.isReady = true → d.shouldPause = true →
          playerEvents prev (d :: rest)
            = PlayerEvent.pauseVideo :: PlayerEvent.onPausedSignal ::
                playerEvents (some d) rest) ∧
    (∀ (prev : Option PlayerRenderProps) (d : PlayerRenderProps)
        (rest : List PlayerRenderProps),
        d.shouldPause = false ∨ d.isReady = false →
          playerEvents prev (d :: rest) = playerEvents (some d) rest) ∧
    (∀ (prev : Option PlayerRenderProps) (d : PlayerRenderProps)
        (rest : List PlayerRenderProps),
        prev = some d →
          playerEvents prev (d :: rest) = playerEvents (some d) rest) := by
  refine ⟨fun prev d rest hne hr hp => ?_, fun prev d rest h => ?_,
    fun prev d rest h => ?_⟩
  · simp [playerEvents, pauseEffectRun, pauseEffectBody, hne, hr, hp]
  · rcases h with h | h <;>
      simp [playerEvents, pauseEffectRun, pauseEffectBody, h]
  · simp [playerEvents, pauseEffectRun, h]

/-- C5 witness: a first render with the request true and the player ready
issues pause then paused. -/
theorem C5_pause_effect_per_render_witness :
    playerEvents none [{ shouldPause := true, isReady := true, onPausedId := 0 }]
      = [PlayerEvent.pauseVideo, PlayerEvent.onPausedSignal] := by
  have h := C5_pause_effect_per_render.1 none
    { shouldPause := true, isReady := true, onPausedId := 0 } []
    (by simp) rfl rfl
  simpa [playerEvents] using h

/-- C6: onQuestionComplete with an active item bumps total by one, bumps
correct exactly when the answer was right, records the id in the answered
set, and clears both ActiveQuestion and the pause request; and the overlay
continue handler reports true exactly for the option index equal to
correctAnswerIndex, in which case the score becomes (prev+1, prev+1). -/
theorem C6_question_complete_updates :
    (∀ (s : AppData) (q : QuizQuestion) (isCorrect : Bool),
        s.activeQuestion = some q →
          (handleQuestionComplete s isCorrect).score.total = s.score.total + 1 ∧
          (handleQuestionComplete s isCorrect).score.correct
              = s.score.correct + (if isCorrect then 1 else 0) ∧
          q.id ∈ (handleQuestionComplete s isCorrect).answeredQuestionIds ∧
          (handleQuestionComplete s isCorrect).activeQuestion = none ∧
          (handleQuestionComplete s isCorrect).shouldPause = false) ∧
    (∀ (i : Nat) (q : QuizQuestion),
        i = q.correctAnswerIndex → handleContinue (some i) q = some true) ∧
    (∀ (s : AppData) (q : QuizQuestion),
        s.activeQuestion = some q →
          (handleQuestionComplete s true).score
              = { correct := s.score.correct + 1, total := s.score.total + 1 }) := by
  refine ⟨fun s q isCorrect h => ?_, fun i q h => ?_, fun s q h => ?_⟩
  · simp [handleQuestionComplete, h, List.mem_insert_self]
  · simp [handleContinue, h]
  · simp [handleQuestionComplete, h]

/-- C6 witness: completing the active sample question correctly, after
selecting the option whose index equals correctAnswerIndex. -/
theorem C6_question_complete_updates_witness :
    handleContinue (some 1) qA = some true ∧
    (handleQuestionComplete sActive true).score.total = sActive.score.total + 1 ∧
    (handleQuestionComplete sActive true).score
        = { correct := sActive.score.correct + 1, total := sActive.score.total + 1 } ∧
    qA.id ∈ (handleQuestionComplete sActive true).answeredQuestionIds ∧
    (handleQuestionComplete sActive true).activeQuestion = none ∧
    (handleQuestionComplete sActive true).shouldPause = false := by
  have hact : sActive.activeQuestion = some qA := rfl
  have h1 := C6_question_complete_updates.1 sActive qA true hact
  have h2 := C6_question_complete_updates.2.1 1 qA (by simp [qA])
  have h3 := C6_question_complete_updates.2.2 sActive qA hact
  exact ⟨h2, h1.1, h3, h1.2.2.1, h1.2.2.2.1, h1.2.2.2.2⟩

/-- C7: with the credential absent, generateQuestions fails with the message
"API Key is missing" and its outcome does not depend on the provider (no
provider call is consulted); and for every failed generation on a valid URL,
the session state is unchanged (SETUP stays SETUP), the nonempty error
message is surfaced verbatim, and the question set is not mutated. -/
theorem C7_missing_credential_fails_fast :
    (∀ p1 p2 : Unit → Except String (List QuizQuestion),
        generateQuestions none p1 = Except.error "API Key is missing" ∧
        generateQuestions none p1 = generateQuestions none p2) ∧
    (∀ (s : AppData) (msg : String) (i : String),
        getYouTubeId s.videoUrl = some i → msg ≠ "" →
          (handleGenerate s (Except.error msg)).state = s.state ∧
          (handleGenerate s (Except.error msg)).error = some msg ∧
          (handleGenerate s (Except.error msg)).questions = s.questions) := by
  refine ⟨fun p1 p2 => ⟨rfl, rfl⟩, fun s msg i hurl hmsg => ?_⟩
  simp [handleGenerate, hurl, hmsg]

/-- C7 witness: the missing-credential error on the sample SETUP session. -/
theorem C7_missing_credential_fails_fast_witness :
    generateQuestions none (fun _ => Except.ok []) = Except.error "API Key is missing" ∧
    (handleGenerate sSetup (Except.error "API Key is missing")).state = AppState.SETUP ∧
    (handleGenerate sSetup (Except.error "API Key is missing")).error
        = some "API Key is missing" ∧
    (handleGenerate sSetup (Except.error "API Key is missing")).questions = [] := by
  have hurl : getYouTubeId sSetup.videoUrl = some "sSsTR8qqDl4" := by decide
  have h1 := (C7_missing_credential_fails_fast.1
    (fun _ => Except.ok []) (fun _ => Except.ok [])).1
  have h2 := C7_missing_credential_fails_fast.2 sSetup "API Key is missing"
    "sSsTR8qqDl4" hurl (by decide)
  exact ⟨h1, h2.1, h2.2.1, h2.2.2⟩

/-- C8: restart from PLAYING resets the state to SETUP, the score to (0,0),
the answered set to empty, the active question to null, the pause request to
false, and the question set to empty. -/
theorem C8_restart_resets :
    ∀ s : AppData, s.state = AppState.PLAYING →
      (handleRestart s).state = AppState.SETUP ∧
      (handleRestart s).score = { correct := 0, total := 0 } ∧
      (handleRestart s).answeredQuestionIds = [] ∧
      (handleRestart s).activeQuestion = none ∧
      (handleRestart s).shouldPause = false ∧
      (handleRestart s).questions = [] := by
  intro s _
  exact ⟨rfl, rfl, rfl, rfl, rfl, rfl⟩

/-- C8 witness: restart applied to the sample PLAYING session. -/
theorem C8_restart_resets_witness :
    (handleRestart sPlay).state = AppState.SETUP ∧
    (handleRestart sPlay).score = { correct := 0, total := 0 } ∧
    (handleRestart sPlay).answeredQuestionIds = [] ∧
    (handleRestart sPlay).activeQuestion = none ∧
    (handleRestart sPlay).shouldPause = false ∧
    (handleRestart sPlay).questions = [] :=
  C8_restart_resets sPlay rfl

/-- C9 counterexample: the duration default of generateQuestions is 10
minutes, not 15; consequently the candidate timestamps produced when no
duration is supplied are those of a 10 minute video, not the 15 minute ones
the claim describes. -/
theorem C9_default_duration_counterexample :
    defaultDurationMinutes = 10 ∧ ¬ defaultDurationMinutes = 15 ∧
    segments defaultDurationMinutes = [60, 180, 300, 420, 540] ∧
    ¬ segments defaultDurationMinutes = [90, 270, 450, 630, 810] := by
  refine ⟨rfl, by norm_num [defaultDurationMinutes], ?_, ?_⟩
  · norm_num [segments, defaultDurationMinutes]
  · norm_num [segments, defaultDurationMinutes]

/-- C9 amended: the default duration is 10 minutes (the generate action of
the app always passes 15 explicitly), and the suggested timestamps are the
floors of 10, 30, 50, 70 and 90 percent of the duration in seconds; at the
default they are 60, 180, 300, 420, 540, and at the explicitly passed 15
minutes they are 90, 270, 450, 630, 810. -/
theorem C9_default_duration_and_segments :
    defaultDurationMinutes = 10 ∧
    (∀ d : ℚ, segments d =
      [⌊d * 60 * (10/100)⌋, ⌊d * 60 * (30/100)⌋, ⌊d * 60 * (50/100)⌋,
       ⌊d * 60 * (70/100)⌋, ⌊d * 60 * (90/100)⌋]) ∧
    segments defaultDurationMinutes = [60, 180, 300, 420, 540] ∧
    segments 15 = [90, 270, 450, 630, 810] := by
  refine ⟨rfl, fun d => ?_, ?_, ?_⟩
  · norm_num [segments]
  · norm_num [segments, defaultDurationMinutes]
  · norm_num [segments]

/-- C10: the progress percentage is total: it is 0 on an empty question
list rather than a division by zero, and otherwise it is
(Score.total / number of questions) * 100. -/
theorem C10_progress_total :
    (∀ s : AppData, s.questions = [] → progressPercentage s = 0) ∧
    (∀ s : AppData, s.questions ≠ [] →
        progressPercentage s
          = ((s.score.total : ℚ) / (s.questions.length : ℚ)) * 100) := by
  constructor
  · intro s h
    simp [progressPercentage, h]
  · intro s h
    rw [progressPercentage, if_neg]
    simpa using h

/-- C10 witness: the empty SETUP session reports 0, and the two-question
session with no answers reports 0/2*100. -/
theorem C10_progress_total_witness :
    progressPercentage sSetup = 0 ∧
    progressPercentage sPlay
      = ((sPlay.score.total : ℚ) / (sPlay.questions.length : ℚ)) * 100 := by
  constructor
  · exact C10_progress_total.1 sSetup rfl
  · exact C10_progress_total.2 sPlay (by simp [sPlay])

end YTQuiz
